import Mathlib

/-!
Shallow embedding of the 3D model viewer lifecycle manager of the
Portfolio repository (`src/js/model-viewer.js`, with the repository's two
further copies of the same component in `src/unnamed/part_000`).

Modelling conventions:
* JavaScript numbers are modelled as exact rationals (`ℚ`); the IEEE special
  values that the source can produce by dividing by zero are modelled
  explicitly by the `JSNum` type at the spots where they matter.
* Three.js objects are modelled by their identity (a numeric id) plus the
  fields the viewer code reads or writes.  `dispose()` calls on geometries,
  textures and materials are modelled as an explicit event trace so that
  ordering of releases can be stated.
* `requestAnimationFrame` / `cancelAnimationFrame` are modelled by a
  scheduler state holding the ids of the pending frame callbacks (browser
  frame-request ids start at 1, so an id is never the falsy 0).
* DOM overlay manipulation (`showLoading`, `updateLoadingProgress`,
  `showError`) has no effect on any claimed property and is elided; the
  percentage value handed to `updateLoadingProgress` is modelled exactly.
-/

namespace PortfolioViewer

/-- A JavaScript number at the points where the source may leave the finite
range: either an exact finite value, an infinity, or NaN. -/
inductive JSNum where
  | num (q : ℚ)
  | posInf
  | negInf
  | nan
deriving DecidableEq, Repr

/-- JavaScript division on finite operands: finite quotient when the divisor
is nonzero, otherwise the IEEE result (`±Infinity` for a nonzero dividend,
`NaN` for `0 / 0`). -/
def jsDiv (a b : ℚ) : JSNum :=
  if b = 0 then
    (if 0 < a then JSNum.posInf else if a < 0 then JSNum.negInf else JSNum.nan)
  else JSNum.num (a / b)

/-- JavaScript multiplication of a (possibly non-finite) number by a positive
finite constant, as used in `(progress.loaded / progress.total) * 100`. -/
def jsMulPos (x : JSNum) (c : ℚ) : JSNum :=
  match x with
  | JSNum.num q => JSNum.num (q * c)
  | JSNum.posInf => JSNum.posInf
  | JSNum.negInf => JSNum.negInf
  | JSNum.nan => JSNum.nan

/-- The JavaScript `a || b` idiom on DOM measurements: `0` is falsy, any
other measurement is truthy. -/
def jsOrDefault (a b : ℚ) : ℚ := if a = 0 then b else a

/-! ## Graphics resources -/

/-- A texture object (`THREE.Texture`), identified by object identity. -/
structure Texture where
  id : Nat
deriving DecidableEq, Repr

/-- A geometry object (`THREE.BufferGeometry`), identified by object
identity. -/
structure Geometry where
  id : Nat
deriving DecidableEq, Repr

/-- A material with the fields the viewer reads or writes: the four texture
map slots released by `disposeMaterial`, the `wireframe` flag and flat
`color` toggled by `setViewMode`, and the `needsUpdate` flag. -/
structure Material where
  id : Nat
  map : Option Texture
  normalMap : Option Texture
  roughnessMap : Option Texture
  metalnessMap : Option Texture
  wireframe : Bool
  colorHex : Nat
  needsUpdate : Bool
deriving DecidableEq, Repr

/-- `child.material` in three.js is null/undefined, a single material, or an
array of materials — the three cases `disposeModel` distinguishes. -/
inductive MaterialSlot where
  | noMat
  | single (m : Material)
  | array (ms : List Material)
deriving DecidableEq, Repr

/-- The materials a slot holds (the array case maps `forEach`, the single
case one call, the empty case none), in the order the source visits them. -/
def slotMats : MaterialSlot → List Material
  | MaterialSlot.noMat => []
  | MaterialSlot.single m => [m]
  | MaterialSlot.array ms => ms

/-- One drawable sub-part of a model: a traversal child with
`child.isMesh = true`.  `originalMap` models `child.userData.originalMap`. -/
structure Mesh where
  geometry : Option Geometry
  material : MaterialSlot
  originalMap : Option Texture
  castShadow : Bool
  receiveShadow : Bool
deriving DecidableEq, Repr

/-- A loaded model (`gltf.scene`): its object identity plus the mesh
children its traversal visits, in traversal order.  (Non-mesh children are
skipped by every `traverse` callback in the source and are elided; the
uniform `scale`/`position` transform is not read by any claimed property.) -/
structure Model where
  id : Nat
  meshes : List Mesh
deriving DecidableEq, Repr

/-- `child.material.map` as the source reads it when recording
`userData.originalMap`: a texture only when the slot is a single material
carrying a map (on a material array the property is not a texture). -/
def matMap (c : Mesh) : Option Texture :=
  match c.material with
  | MaterialSlot.single m => m.map
  | _ => none

/-- `child.material.wireframe` where it denotes a real material flag. -/
def matWireframe (c : Mesh) : Option Bool :=
  match c.material with
  | MaterialSlot.single m => some m.wireframe
  | _ => none

/-! ## Resource release events (`disposeModel` / `disposeMaterial`) -/

/-- A resource release event: one `.dispose()` call on a geometry, texture,
or material. -/
inductive DisposeEv where
  | geo (id : Nat)
  | tex (id : Nat)
  | mat (id : Nat)
deriving DecidableEq, Repr

/-- The release event of an optional texture slot. -/
def optTexEv : Option Texture → List DisposeEv
  | some t => [DisposeEv.tex t.id]
  | none => []

/-- `disposeMaterial(material)`: releases `map`, `normalMap`,
`roughnessMap`, `metalnessMap` (each when present) and then the material
itself, in source order. -/
def disposeMaterialEvs (m : Material) : List DisposeEv :=
  optTexEv m.map ++ optTexEv m.normalMap ++ optTexEv m.roughnessMap ++
    optTexEv m.metalnessMap ++ [DisposeEv.mat m.id]

/-- The per-child body of `disposeModel`'s traversal: release the geometry
when present, then each material of the slot. -/
def disposeMeshEvs (c : Mesh) : List DisposeEv :=
  (match c.geometry with
    | some g => [DisposeEv.geo g.id]
    | none => []) ++
  (slotMats c.material).flatMap disposeMaterialEvs

/-- `disposeModel(model)`: the full release trace of a model, in traversal
order. -/
def disposeModelEvs (m : Model) : List DisposeEv :=
  m.meshes.flatMap disposeMeshEvs

/-- `a` occurs strictly before `b` in the event trace `tr`. -/
def evBefore (tr : List DisposeEv) (a b : DisposeEv) : Prop :=
  ∃ i j : Nat, i < j ∧ tr[i]? = some a ∧ tr[j]? = some b

/-! ## Load-time model normalisation (claim C3)

`src/js/model-viewer.js` line 195 computes the uniform scale factor as
`2 / maxDim` with no guard; the repository's two other copies of the same
component (`src/unnamed/part_000` lines 215 and 785) compute
`maxDim > 0 ? 2 / maxDim : 1`. -/

/-- `Math.max(size.x, size.y, size.z)`. -/
def maxDimOf (sx sy sz : ℚ) : ℚ := max sx (max sy sz)

/-- The scale factor of `src/js/model-viewer.js` (`const scale = 2 / maxDim;`). -/
def loadScaleJs (sx sy sz : ℚ) : JSNum := jsDiv 2 (maxDimOf sx sy sz)

/-- The scale factor of the `src/unnamed/part_000` copies
(`const scale = maxDim > 0 ? 2 / maxDim : 1;`). -/
def loadScaleUnnamed (sx sy sz : ℚ) : JSNum :=
  if 0 < maxDimOf sx sy sz then jsDiv 2 (maxDimOf sx sy sz) else JSNum.num 1

/-! ## Load-progress percentage (claim C7)

`src/js/model-viewer.js` line 234 computes
`(progress.loaded / progress.total) * 100` with no guard; the
`src/unnamed/part_000` copies (lines 255 and 831) compute
`progress.total > 0 ? (progress.loaded / progress.total) * 100 : 0`. -/

/-- The percentage handed to `updateLoadingProgress` by
`src/js/model-viewer.js`. -/
def progressPercentJs (loaded total : ℚ) : JSNum :=
  jsMulPos (jsDiv loaded total) 100

/-- The percentage handed to `updateLoadingProgress` by the
`src/unnamed/part_000` copies. -/
def progressPercentUnnamed (loaded total : ℚ) : ℚ :=
  if 0 < total then (loaded / total) * 100 else 0

/-! ## Render-surface dimensions at `init` time (claim C9)

`src/js/model-viewer.js` sizes camera aspect and renderer straight from the
canvas (`this.canvas.clientWidth / this.canvas.clientHeight`, lines 39 and
52) with no fallback; the `src/unnamed/part_000` copies measure the parent
container with a 400-pixel fallback
(`container.clientWidth || container.offsetWidth || 400`, lines 40-41 and
568-569). -/

/-- The dimensions and camera aspect the `init` code establishes. -/
structure InitDims where
  width : ℚ
  height : ℚ
  aspect : JSNum
deriving DecidableEq, Repr

/-- `init` sizing in `src/js/model-viewer.js`: raw canvas measurements. -/
def initDimsJs (canvasClientW canvasClientH : ℚ) : InitDims :=
  { width := canvasClientW
    height := canvasClientH
    aspect := jsDiv canvasClientW canvasClientH }

/-- `init` sizing in the first `src/unnamed/part_000` copy: parent container
measurements with the `|| 400` fallback chain. -/
def initDimsUnnamed (containerClientW containerOffsetW
    containerClientH containerOffsetH : ℚ) : InitDims :=
  let w := jsOrDefault containerClientW (jsOrDefault containerOffsetW 400)
  let h := jsOrDefault containerClientH (jsOrDefault containerOffsetH 400)
  { width := w, height := h, aspect := jsDiv w h }

/-! ## Animation-frame scheduler

`requestAnimationFrame` hands back a fresh nonzero id and schedules one
callback; `cancelAnimationFrame` with any id (pending, already fired or
already cancelled) simply unschedules it when pending and is a no-op
otherwise — it never throws. -/

/-- The pending-frame state of the browser, restricted to one viewer's
callbacks: the ids of the ticks currently scheduled, and the next fresh
request id (browser ids start at 1, so an id is never the falsy `0`). -/
structure Sch where
  scheduled : List Nat
  nextId : Nat
deriving DecidableEq, Repr

/-- The scheduler of a freshly loaded page: nothing pending. -/
def sch0 : Sch := { scheduled := [], nextId := 1 }

/-- `requestAnimationFrame(cb)`: returns the fresh id and schedules it. -/
def raf (s : Sch) : Nat × Sch :=
  (s.nextId, { scheduled := s.scheduled ++ [s.nextId], nextId := s.nextId + 1 })

/-- `cancelAnimationFrame(id)`. -/
def caf (s : Sch) (id : Nat) : Sch :=
  { s with scheduled := s.scheduled.erase id }

/-! ## Viewer state -/

/-- `this.controls` (the orbit-control rig), with the fields the viewer
code reads back: the zoom bounds used by the pinch handler and the
auto-rotate flag toggled after a load. -/
structure Controls where
  minDistance : ℚ
  maxDistance : ℚ
  autoRotate : Bool
deriving DecidableEq, Repr

/-- A camera position vector. -/
abbrev Vec3 := ℚ × ℚ × ℚ

/-- Componentwise `Vector3.multiplyScalar`. -/
def smul (k : ℚ) (v : Vec3) : Vec3 := (k * v.1, k * v.2.1, k * v.2.2)

/-- The squared Euclidean norm of a position vector (`position.length()`
squared — kept squared so the model stays inside `ℚ`). -/
def normSq (v : Vec3) : ℚ := v.1 * v.1 + v.2.1 * v.2.1 + v.2.2 * v.2.2

/-- `this.scene`: the attached model children (by object id) plus the
number of lights `setupLighting` added.  (The scene's background colour is
not read by any claimed property.) -/
structure Scene where
  models : List Nat
  lights : Nat
deriving DecidableEq, Repr

/-- The `ModelViewer` instance state: every constructor-assigned field the
claims touch.  Nullable references are `Option`s (`none` = JS `null`). -/
structure Viewer where
  canvasId : String
  scene : Option Scene
  camera : Option Vec3
  renderer : Option Unit
  controls : Option Controls
  model : Option Model
  animationId : Option Nat
  viewMode : String
  isInitialized : Bool
  touchStartX : ℚ
  touchStartY : ℚ
  touchStartDistance : ℚ
  isTouch : Bool
  resizeSubscribed : Bool
  visibilitySubscribed : Bool
  isMobile : Bool
deriving DecidableEq, Repr

/-- `new ModelViewer(canvasId)`: the constructor's field assignments
(`isMobile` stands for the user-agent test's outcome). -/
def mkViewer (canvasId : String) (isMobile : Bool) : Viewer :=
  { canvasId := canvasId
    scene := none
    camera := none
    renderer := none
    controls := none
    model := none
    animationId := none
    viewMode := "textured"
    isInitialized := false
    touchStartX := 0
    touchStartY := 0
    touchStartDistance := 0
    isTouch := false
    resizeSubscribed := false
    visibilitySubscribed := false
    isMobile := isMobile }

/-- `init()`: returns immediately when `isInitialized` is already set;
otherwise creates the scene (with the four lights of `setupLighting`),
camera at `(0, 1, 3)`, renderer and controls (`minDistance 1`,
`maxDistance 10`, `autoRotate false` from `setupControls`), subscribes the
bound resize and visibilitychange handlers, and sets the flag.  (The
surface-measurement arithmetic of the renderer setup is modelled separately
by `initDimsJs` / `initDimsUnnamed`.) -/
def init (v : Viewer) : Viewer :=
  if v.isInitialized then v
  else
    { v with
      scene := some { models := [], lights := 4 }
      camera := some ((0 : ℚ), (1 : ℚ), (3 : ℚ))
      renderer := some ()
      controls := some { minDistance := 1, maxDistance := 10, autoRotate := false }
      resizeSubscribed := true
      visibilitySubscribed := true
      isInitialized := true }

/-- The scheduling effect of one `animate()` call: store the fresh
`requestAnimationFrame` id in `this.animationId`.  (The per-tick body —
controls update and render, skipped while `document.hidden` — draws frames
but changes none of the claimed state.) -/
def animateOnce (v : Viewer) (s : Sch) : Viewer × Sch :=
  let (id, s') := raf s
  ({ v with animationId := some id }, s')

/-- `handleVisibilityChange()`, split on the `document.hidden` flag:
hidden with a live handle cancels the frame request and nulls the handle;
visible with a model and no handle restarts `animate()`; anything else is
a no-op. -/
def handleVisibilityChange (hidden : Bool) (v : Viewer) (s : Sch) : Viewer × Sch :=
  if hidden then
    match v.animationId with
    | some id => ({ v with animationId := none }, caf s id)
    | none => (v, s)
  else
    if v.model.isSome ∧ v.animationId = none then animateOnce v s
    else (v, s)

/-- `dispose()`: cancels the pending frame when a handle is held (the
source does **not** null `this.animationId`, so a stale handle value
remains), unsubscribes both handlers, releases model / renderer / controls
behind their null-guards, and nulls the owned references.  Every member
access in the source is guarded, so the operation is total. -/
def dispose (v : Viewer) (s : Sch) : Viewer × Sch :=
  let s1 := match v.animationId with
    | some id => caf s id
    | none => s
  ({ v with
      resizeSubscribed := false
      visibilitySubscribed := false
      scene := none
      camera := none
      renderer := none
      controls := none
      model := none }, s1)

/-! ## Touch pinch handler (claim C5) -/

/-- The `touchmove` listener of `setupTouchHandlers` for an event with
`touches` fingers.  `d1` is the recomputed inter-finger distance
`Math.sqrt(dx*dx + dy*dy)` and `posLen` is the camera distance
`this.camera.position.length()` — both square roots are taken as inputs so
the model stays in `ℚ`; the claim theorems tie `posLen` to the camera
position through `normSq`.  The zoom is committed, and the reference
distance updated, only inside the strict bounds check — exactly as in the
source (all three copies agree on this handler). -/
def touchMovePinch (v : Viewer) (touches : Nat) (d1 posLen : ℚ) : Viewer :=
  if !v.isTouch then v
  else if touches = 2 ∧ 0 < v.touchStartDistance then
    match v.camera, v.controls with
    | some pos, some ctl =>
      let scale := d1 / v.touchStartDistance
      let newDistance := posLen / scale
      if ctl.minDistance < newDistance ∧ newDistance < ctl.maxDistance then
        { v with
            camera := some (smul (1 / scale) pos)
            touchStartDistance := d1 }
      else v
    | _, _ => v
  else v

/-! ## View-mode switching (claims C6) -/

/-- The per-mesh body of `setViewMode`'s traversal, switching on the mode
string (the source's `default` case behaves like `"textured"`).  Only a
single material has the `wireframe` / `map` / `color` fields the code sets;
on a material array the assignments land on the array object and leave
every material untouched (and a mesh always carries a material in a loaded
GLTF, so the empty slot is left unchanged). -/
def applyViewMode (mode : String) (c : Mesh) : Mesh :=
  match c.material with
  | MaterialSlot.single m =>
    if mode = "wireframe" then
      let m1 := { m with wireframe := true }
      { c with material := MaterialSlot.single m1 }
    else if mode = "solid" then
      let m1 := { m with wireframe := false }
      if m1.map.isSome then
        let m2 := { m1 with map := none, colorHex := 0x808080, needsUpdate := true }
        { c with material := MaterialSlot.single m2 }
      else { c with material := MaterialSlot.single m1 }
    else
      -- "textured" and the default case
      let m1 := { m with wireframe := false }
      match c.originalMap with
      | some t =>
        let m2 := { m1 with map := some t, needsUpdate := true }
        { c with material := MaterialSlot.single m2 }
      | none => { c with material := MaterialSlot.single m1 }
  | _ => c

/-- `setViewMode(mode)` restricted to the loaded model: traverse every
mesh child.  (When no model is loaded the viewer only records the mode.) -/
def setViewModeModel (mode : String) (m : Model) : Model :=
  { m with meshes := m.meshes.map (applyViewMode mode) }

/-! ## Model load completion (claims C1, C6) -/

/-- The per-mesh body of `loadModel`'s success-callback traversal: set the
shadow flags from the device profile and record `userData.originalMap`
from `child.material.map` when that is a texture.  (The mobile material
tweaks touch only `envMapIntensity` / `roughness`, which no claim reads.) -/
def prepMesh (isMobile : Bool) (c : Mesh) : Mesh :=
  let c1 := { c with castShadow := !isMobile, receiveShadow := !isMobile }
  match matMap c with
  | some t => { c1 with originalMap := some t }
  | none => c1

/-- The success callback's traversal over the whole model. -/
def prepModel (isMobile : Bool) (m : Model) : Model :=
  { m with meshes := m.meshes.map (prepMesh isMobile) }

/-- One viewer's state during a sequence of load completions: the viewer,
the browser frame scheduler, and the accumulated resource-release trace. -/
structure LoadRun where
  viewer : Viewer
  sch : Sch
  trace : List DisposeEv
deriving DecidableEq, Repr

/-- The `loader.load` success callback of `loadModel`, in source order:
remove and release the previous model when one is attached, take ownership
of the new `gltf.scene`, run the material-preparation traversal, attach the
model to the scene, start `animate()` unless a frame handle is live, and
switch `controls.autoRotate` on (the 2-second timer that clears it again
changes no claimed state).  The scene is non-null whenever a load is issued
on an existing viewer (`load3DModel` runs `init` first); the null case is
kept as a no-op for totality. -/
def onGltfLoaded (st : LoadRun) (gltf : Model) : LoadRun :=
  match st.viewer.scene with
  | none => st
  | some sc =>
    let models1 : List Nat :=
      match st.viewer.model with
      | some old => sc.models.erase old.id
      | none => sc.models
    let trace1 : List DisposeEv :=
      match st.viewer.model with
      | some old => st.trace ++ disposeModelEvs old
      | none => st.trace
    let g : Model := prepModel st.viewer.isMobile gltf
    let v1 : Viewer := { st.viewer with
        model := some g
        scene := some { sc with models := models1 ++ [g.id] } }
    let r2 : Viewer × Sch :=
      if v1.animationId = none then animateOnce v1 st.sch else (v1, st.sch)
    let v3 : Viewer := { r2.1 with
        controls := r2.1.controls.map (fun c => { c with autoRotate := true }) }
    { viewer := v3, sch := r2.2, trace := trace1 }

/-- The state of a viewer freshly created and `init`-ed by `load3DModel`,
before any load completes. -/
def initialRun (isMobile : Bool) (canvasId : String) : LoadRun :=
  { viewer := init (mkViewer canvasId isMobile), sch := sch0, trace := [] }

/-- A finite sequence of settled load completions on one viewer. -/
def loadSequence (isMobile : Bool) (canvasId : String) (gltfs : List Model) : LoadRun :=
  gltfs.foldl onGltfLoaded (initialRun isMobile canvasId)

/-! ## Viewer registry (claims C2, C10) -/

/-- The process-wide state around the `viewers` registry: the map from
canvas id to viewer object id, the object store giving each created viewer
its state, the next fresh object id, and the frame scheduler. -/
structure World where
  entries : List (String × Nat)
  store : List (Nat × Viewer)
  nextObj : Nat
  sch : Sch
deriving DecidableEq, Repr

/-- The page-load state: an empty `viewers` registry. -/
def emptyWorld : World :=
  { entries := [], store := [], nextObj := 0, sch := sch0 }

/-- `viewers[canvasId]` as a registry lookup. -/
def lookupEntry (w : World) (canvasId : String) : Option Nat :=
  (w.entries.find? (fun p => p.1 = canvasId)).map (fun p => p.2)

/-- Dereference a viewer object id in the store. -/
def getViewer (w : World) (oid : Nat) : Option Viewer :=
  (w.store.find? (fun p => p.1 = oid)).map (fun p => p.2)

/-- Overwrite a viewer object's state in the store. -/
def setViewer (w : World) (oid : Nat) (v : Viewer) : World :=
  { w with store := w.store.map (fun p => if p.1 = oid then (oid, v) else p) }

/-- The registry-resolution step of `load3DModel` (lines 418-422): when the
canvas id is unregistered, construct a `ModelViewer`, register it and run
`init()`; otherwise use the registered instance.  Returns the world and the
resolved viewer's object id.  (The rest of `load3DModel` — placeholder
swapping and issuing `loadModel` — acts on the resolved instance and is
modelled by the load pipeline above.) -/
def getOrCreateViewer (isMobile : Bool) (w : World) (canvasId : String) :
    World × Nat :=
  match lookupEntry w canvasId with
  | some oid => (w, oid)
  | none =>
    let oid := w.nextObj
    let v := init (mkViewer canvasId isMobile)
    ({ w with
        entries := w.entries ++ [(canvasId, oid)]
        store := w.store ++ [(oid, v)]
        nextObj := w.nextObj + 1 }, oid)

/-- `viewer.dispose()` applied to a registered viewer: the registry itself
is never touched (no removal operation exists in the source). -/
def disposeInWorld (w : World) (oid : Nat) : World :=
  match getViewer w oid with
  | some v =>
    let (v', sch') := dispose v w.sch
    let w1 := setViewer w oid v'
    { w1 with sch := sch' }
  | none => w

/-! ## Claim predicates -/

/-- The model children currently attached to the viewer's scene. -/
def sceneModels (v : Viewer) : Option (List Nat) :=
  v.scene.map Scene.models

/-- The scene holds exactly the current model (or nothing): the invariant
maintained by the load success callback. -/
def SceneInv (v : Viewer) : Prop :=
  sceneModels v = some (match v.model with
    | some m => [m.id]
    | none => [])

/-- Well-formedness of a viewer against the frame scheduler: at most one
tick of this viewer is pending, and a pending tick is the tracked one
(`this.animationId`); a stale handle with no pending tick is allowed,
since `dispose` cancels the frame but keeps the handle value). -/
def WF (v : Viewer) (s : Sch) : Prop :=
  s.scheduled = [] ∨ ∃ id, v.animationId = some id ∧ s.scheduled = [id]

/-- A model's resources are fully released in the trace `tr`: every
sub-part's geometry has a release event, and every material of every
sub-part is released with each of its four texture maps (when present)
released strictly before the material itself. -/
def fullyReleased (m : Model) (tr : List DisposeEv) : Prop :=
  ∀ c ∈ m.meshes,
    (∀ g, c.geometry = some g → DisposeEv.geo g.id ∈ tr) ∧
    ∀ mt ∈ slotMats c.material,
      DisposeEv.mat mt.id ∈ tr ∧
      (∀ t, mt.map = some t → evBefore tr (DisposeEv.tex t.id) (DisposeEv.mat mt.id)) ∧
      (∀ t, mt.normalMap = some t → evBefore tr (DisposeEv.tex t.id) (DisposeEv.mat mt.id)) ∧
      (∀ t, mt.roughnessMap = some t → evBefore tr (DisposeEv.tex t.id) (DisposeEv.mat mt.id)) ∧
      (∀ t, mt.metalnessMap = some t → evBefore tr (DisposeEv.tex t.id) (DisposeEv.mat mt.id))

/-! ## Concrete fixtures (used by the closed witness theorems) -/

/-- A sample base-colour texture. -/
def demoTexture : Texture := ⟨300⟩

/-- A sample normal-map texture. -/
def demoNormalTexture : Texture := ⟨301⟩

/-- A sample textured material. -/
def demoMaterial : Material :=
  { id := 200
    map := some demoTexture
    normalMap := some demoNormalTexture
    roughnessMap := none
    metalnessMap := none
    wireframe := false
    colorHex := 0xffffff
    needsUpdate := false }

/-- A sample mesh child owning a geometry and the textured material. -/
def demoMesh : Mesh :=
  { geometry := some ⟨100⟩
    material := MaterialSlot.single demoMaterial
    originalMap := none
    castShadow := true
    receiveShadow := true }

/-- A first sample model. -/
def demoModelA : Model := ⟨1, [demoMesh]⟩

/-- A second sample model (untextured single material). -/
def demoModelB : Model :=
  ⟨2, [{ geometry := some ⟨110⟩
         material := MaterialSlot.single
           { id := 210
             map := none
             normalMap := none
             roughnessMap := none
             metalnessMap := none
             wireframe := false
             colorHex := 0
             needsUpdate := false }
         originalMap := none
         castShadow := true
         receiveShadow := true }]⟩

/-- The state of one viewer after one settled load of `demoModelA`. -/
def demoRun : LoadRun := loadSequence false "model-canvas-1" [demoModelA]

/-- An initialized touch-profile viewer mid-gesture: a two-finger touch
start recorded reference distance 1, and the camera was moved to
`(0, 0, 3)` (distance 3 from the origin). -/
def pinchViewer : Viewer :=
  { init (mkViewer "model-canvas-1" true) with
      isTouch := true
      touchStartDistance := 1
      camera := some ((0 : ℚ), (0 : ℚ), (3 : ℚ)) }

/-! # Theorems -/

/-- C3 (code bug): the claim — degenerate bounding box (max dimension 0)
must yield scale 1 with no division by zero — holds for the guarded copies
in `src/unnamed/part_000` (`maxDim > 0 ? 2 / maxDim : 1`), but
`src/js/model-viewer.js` line 195 divides `2 / maxDim` unguarded: at a
zero-size bounding box the scale factor is `Infinity`, not `1`. -/
theorem c3_degenerate_scale_unguarded :
    loadScaleJs 0 0 0 = JSNum.posInf ∧
    loadScaleJs 0 0 0 ≠ JSNum.num 1 ∧
    loadScaleUnnamed 0 0 0 = JSNum.num 1 ∧
    loadScaleUnnamed 3 5 4 = jsDiv 2 5 := by
  refine ⟨by decide, by decide, by decide, ?_⟩
  norm_num [loadScaleUnnamed, maxDimOf]

/-- C7 (code bug): the claim — a progress notification with `total = 0`
reports percentage 0, never `NaN` or `Infinity` — holds for the guarded
copies in `src/unnamed/part_000` (`total > 0 ? … : 0`), but
`src/js/model-viewer.js` line 234 computes `(loaded / total) * 100`
unguarded: with `total = 0` it hands `Infinity` (or `NaN` when
`loaded = 0`) to the loading UI. -/
theorem c7_progress_zero_total_unguarded :
    progressPercentJs 1 0 = JSNum.posInf ∧
    progressPercentJs 0 0 = JSNum.nan ∧
    progressPercentUnnamed 1 0 = 0 ∧
    progressPercentUnnamed 0 0 = 0 := by
  refine ⟨by decide, by decide, by decide, by decide⟩

/-- C9 (code bug): the claim — all-zero container measurements at `init`
produce the 400×400 fallback surface sized from the parent container —
matches the `src/unnamed/part_000` copies
(`container.clientWidth || container.offsetWidth || 400`), but
`src/js/model-viewer.js` sizes straight from the canvas with no fallback:
zero measurements give a 0×0 surface and a `NaN` camera aspect. -/
theorem c9_init_fallback_size_missing :
    initDimsUnnamed 0 0 0 0 = { width := 400, height := 400, aspect := JSNum.num 1 } ∧
    initDimsJs 0 0 = { width := 0, height := 0, aspect := JSNum.nan } := by
  constructor
  · norm_num [initDimsUnnamed, jsOrDefault, jsDiv]
  · norm_num [initDimsJs, jsDiv]

/-- C5 (counterexample): the claim says that when the pinch result falls
outside the open zoom interval, the camera is unchanged **but
`touchStartDistance` is still updated to `d1`**.  In the source the update
sits inside the bounds check, so outside the bounds nothing is updated:
with reference distance `d0 = 1`, new distance `d1 = 10` and camera
distance 3, the resulting distance `3/10` is outside `(1, 10)`, the state
is returned unchanged, and `touchStartDistance` stays `1 ≠ 10`. -/
theorem c5_reference_update_counterexample :
    (3 : ℚ) * 3 = normSq ((0 : ℚ), (0 : ℚ), (3 : ℚ)) ∧
    pinchViewer.touchStartDistance = 1 ∧
    ¬((1 : ℚ) < 3 * 1 / 10) ∧
    touchMovePinch pinchViewer 2 10 3 = pinchViewer ∧
    ¬((touchMovePinch pinchViewer 2 10 3).touchStartDistance = 10) := by
  refine ⟨by norm_num [normSq], by decide, by norm_num, ?_, ?_⟩ <;>
    norm_num [touchMovePinch, pinchViewer, init, mkViewer]

/-- C5 (amended): a two-finger pinch with recorded reference distance
`d0 = touchStartDistance > 0` and new inter-finger distance `d1` scales the
camera position by `d0/d1` and updates `touchStartDistance` to `d1` exactly
when the resulting camera distance `posLen·d0/d1` lies strictly inside
`(minDistance, maxDistance)`; otherwise the handler leaves the entire
viewer state unchanged — `touchStartDistance` included.  `posLen` is the
camera distance `position.length()`, tied to the position vector by the
stated hypotheses. -/
theorem c5_pinch_commit_guard (v : Viewer) (pos : Vec3) (ctl : Controls)
    (d1 posLen : ℚ)
    (hT : v.isTouch = true) (hcam : v.camera = some pos)
    (hctl : v.controls = some ctl)
    (hd0 : 0 < v.touchStartDistance) (hd1 : 0 < d1)
    (hlen0 : 0 ≤ posLen) (hlen : posLen * posLen = normSq pos) :
    ((ctl.minDistance < posLen * v.touchStartDistance / d1 ∧
        posLen * v.touchStartDistance / d1 < ctl.maxDistance) →
      touchMovePinch v 2 d1 posLen =
        { v with
            camera := some (smul (v.touchStartDistance / d1) pos)
            touchStartDistance := d1 }) ∧
    (¬(ctl.minDistance < posLen * v.touchStartDistance / d1 ∧
        posLen * v.touchStartDistance / d1 < ctl.maxDistance) →
      touchMovePinch v 2 d1 posLen = v) := by
  have hnd : posLen / (d1 / v.touchStartDistance) =
      posLen * v.touchStartDistance / d1 := div_div_eq_mul_div _ _ _
  have hsc : 1 / (d1 / v.touchStartDistance) = v.touchStartDistance / d1 :=
    one_div_div _ _
  constructor
  · intro h
    simp only [touchMovePinch, hT, hcam, hctl, Bool.not_true, if_false,
      Bool.false_eq_true, hnd, hsc]
    simp [hd0, h]
  · intro h
    simp only [touchMovePinch, hT, hcam, hctl, Bool.not_true, if_false,
      Bool.false_eq_true, hnd, hsc]
    simp [hd0, h]

/-- C5 (witness): the amended guard at a concrete in-bounds pinch —
`d0 = 1`, `d1 = 2`, camera distance 3, resulting distance `3/2 ∈ (1, 10)` —
commits the zoom and updates the reference distance. -/
theorem c5_pinch_commit_guard_witness :
    (touchMovePinch pinchViewer 2 2 3).camera = some ((0 : ℚ), 0, 3 / 2) ∧
    (touchMovePinch pinchViewer 2 2 3).touchStartDistance = 2 := by
  have h := (c5_pinch_commit_guard pinchViewer ((0 : ℚ), (0 : ℚ), (3 : ℚ))
      { minDistance := 1, maxDistance := 10, autoRotate := false } 2 3
      (by decide) (by decide) (by decide) (by decide) (by norm_num)
      (by norm_num) (by norm_num [normSq])).1 (by
        norm_num [pinchViewer, init, mkViewer])
  rw [h]
  norm_num [pinchViewer, init, mkViewer, smul]

/-- C2: resolving the same canvas id twice through `load3DModel`'s
registry step returns the same viewer object both times — the second call
finds the registered entry and leaves the world (registry, store,
scheduler) completely unchanged — and the `init` side effects run exactly
once: the stored viewer is the once-`init`-ed instance, and a second
`init` on any initialized viewer returns it unchanged because the
`isInitialized` flag is checked first. -/
theorem c2_get_or_create_idempotent (isMobile : Bool) (w : World) (cid : String)
    (habs : lookupEntry w cid = none)
    (hfresh : ∀ p ∈ w.store, p.1 ≠ w.nextObj) :
    getOrCreateViewer isMobile (getOrCreateViewer isMobile w cid).1 cid =
      getOrCreateViewer isMobile w cid ∧
    getViewer (getOrCreateViewer isMobile w cid).1
        (getOrCreateViewer isMobile w cid).2 =
      some (init (mkViewer cid isMobile)) ∧
    init (init (mkViewer cid isMobile)) = init (mkViewer cid isMobile) ∧
    (∀ v : Viewer, v.isInitialized = true → init v = v) := by
  have hfind : w.entries.find? (fun p => p.1 = cid) = none := by
    by_contra hne
    rcases Option.ne_none_iff_exists'.mp hne with ⟨p, hp⟩
    simp [lookupEntry, hp] at habs
  have hstep : getOrCreateViewer isMobile w cid =
      ({ w with
          entries := w.entries ++ [(cid, w.nextObj)]
          store := w.store ++ [(w.nextObj, init (mkViewer cid isMobile))]
          nextObj := w.nextObj + 1 }, w.nextObj) := by
    simp [getOrCreateViewer, lookupEntry, hfind]
  have hlook2 : lookupEntry (getOrCreateViewer isMobile w cid).1 cid =
      some w.nextObj := by
    rw [hstep]
    simp [lookupEntry, List.find?_append, hfind]
  have hinit2 : ∀ v : Viewer, v.isInitialized = true → init v = v := by
    intro v hv
    simp [init, hv]
  refine ⟨?_, ?_, ?_, hinit2⟩
  · rw [hstep] at hlook2 ⊢
    simp [getOrCreateViewer, hlook2]
  · rw [hstep]
    have hfindstore : (w.store ++ [(w.nextObj, init (mkViewer cid isMobile))]).find?
        (fun p => p.1 = w.nextObj) = some (w.nextObj, init (mkViewer cid isMobile)) := by
      rw [List.find?_append]
      have h1 : w.store.find? (fun p => p.1 = w.nextObj) = none := by
        rw [List.find?_eq_none]
        intro p hp
        simpa using hfresh p hp
      simp [h1]
    simp [getViewer, hfindstore]
  · exact hinit2 _ (by simp [init, mkViewer])

/-- C2 (witness): from the empty registry, resolving `"model-canvas-1"`
twice stores and returns the once-`init`-ed viewer. -/
theorem c2_get_or_create_idempotent_witness :
    getViewer (getOrCreateViewer false emptyWorld "model-canvas-1").1
        (getOrCreateViewer false emptyWorld "model-canvas-1").2 =
      some (init (mkViewer "model-canvas-1" false)) ∧
    getOrCreateViewer false
        (getOrCreateViewer false emptyWorld "model-canvas-1").1 "model-canvas-1" =
      getOrCreateViewer false emptyWorld "model-canvas-1" := by
  have h := c2_get_or_create_idempotent false emptyWorld "model-canvas-1"
    (by decide) (by intro p hp; simp [emptyWorld] at hp)
  exact ⟨h.2.1, h.1⟩

/-- C4: `dispose()` is a total operation (every member access in its body
is null-guarded, `cancelAnimationFrame` and `removeEventListener` accept
spurious arguments): on a never-initialized viewer it completes and leaves
no frame tick pending, and on any viewer whose pending ticks are the ones
tracked by its handle it leaves no tick pending and a second `dispose()`
in a row is a complete no-op (the source keeps the stale `animationId`
value, but its tick is already cancelled, so re-cancelling does
nothing). -/
theorem c4_dispose_reentrant_safe (cid : String) (isMobile : Bool)
    (v : Viewer) (s : Sch) (hwf : WF v s) :
    (dispose (mkViewer cid isMobile) sch0).2.scheduled = [] ∧
    (dispose v s).2.scheduled = [] ∧
    dispose (dispose v s).1 (dispose v s).2 = dispose v s := by
  have hempty : (dispose v s).2.scheduled = [] := by
    rcases hwf with h0 | ⟨id, hid, hs⟩
    · cases hv : v.animationId <;> simp [dispose, caf, hv, h0]
    · simp [dispose, caf, hid, hs]
  refine ⟨by simp [dispose, mkViewer, sch0], hempty, ?_⟩
  have hcaf : ∀ (s' : Sch) (id : Nat), s'.scheduled = [] → caf s' id = s' := by
    intro s' id h
    cases s'
    simp only [caf] at h ⊢
    simp_all
  have hfst : (dispose (dispose v s).1 (dispose v s).2).1 = (dispose v s).1 := by
    simp [dispose]
  have hproj : ∀ (v' : Viewer) (s' : Sch),
      (dispose v' s').2 = (match v'.animationId with
        | some id => caf s' id
        | none => s') := by
    intro v' s'
    rfl
  have hsnd : (dispose (dispose v s).1 (dispose v s).2).2 = (dispose v s).2 := by
    rw [hproj]
    have h1 : (dispose v s).1.animationId = v.animationId := rfl
    rw [h1]
    cases hv : v.animationId with
    | none => rfl
    | some id => exact hcaf _ _ hempty
  exact Prod.ext hfst hsnd

/-- C4 (witness): the viewer after one settled load (whose pending tick is
its tracked handle) disposes to an empty schedule, and a second `dispose`
is a no-op. -/
theorem c4_dispose_reentrant_safe_witness :
    (dispose demoRun.viewer demoRun.sch).2.scheduled = [] ∧
    dispose (dispose demoRun.viewer demoRun.sch).1
        (dispose demoRun.viewer demoRun.sch).2 =
      dispose demoRun.viewer demoRun.sch := by
  have h := c4_dispose_reentrant_safe "model-canvas-1" false
    demoRun.viewer demoRun.sch
    (Or.inr ⟨1, by decide, by decide⟩)
  exact ⟨h.2.1, h.2.2⟩

/-- C8: the visibility handler — on a hidden transition with a live handle
the frame request is cancelled outright and the handle cleared (and with
no handle nothing happens, so a loop is never started while hidden); on a
visible transition the loop restarts, scheduling exactly one fresh tick,
precisely when a model is attached and no handle exists, and otherwise
(in particular whenever no model is loaded) the state is unchanged. -/
theorem c8_visibility_loop_control (v : Viewer) (s : Sch) :
    (∀ id, v.animationId = some id →
      handleVisibilityChange true v s = ({ v with animationId := none }, caf s id)) ∧
    (v.animationId = none → handleVisibilityChange true v s = (v, s)) ∧
    (v.model.isSome = true → v.animationId = none →
      handleVisibilityChange false v s =
        ({ v with animationId := some s.nextId },
         { scheduled := s.scheduled ++ [s.nextId], nextId := s.nextId + 1 })) ∧
    (¬(v.model.isSome = true ∧ v.animationId = none) →
      handleVisibilityChange false v s = (v, s)) := by
  refine ⟨?_, ?_, ?_, ?_⟩
  · intro id hid
    simp [handleVisibilityChange, hid]
  · intro hid
    simp [handleVisibilityChange, hid]
  · intro hm hid
    simp [handleVisibilityChange, hm, hid, animateOnce, raf]
  · intro h
    simp only [handleVisibilityChange, Bool.false_eq_true, if_false]
    rw [if_neg h]

/-- C8 (witness): with `demoModelA` loaded and no handle, a visible
transition schedules a fresh tick; on a freshly initialized viewer with no
model, a visible transition changes nothing. -/
theorem c8_visibility_loop_control_witness :
    handleVisibilityChange false { demoRun.viewer with animationId := none }
        demoRun.sch =
      ({ demoRun.viewer with animationId := some demoRun.sch.nextId },
       { scheduled := demoRun.sch.scheduled ++ [demoRun.sch.nextId],
         nextId := demoRun.sch.nextId + 1 }) ∧
    handleVisibilityChange false (init (mkViewer "model-canvas-1" false)) sch0 =
      (init (mkViewer "model-canvas-1" false), sch0) := by
  constructor
  · have h := (c8_visibility_loop_control
        { demoRun.viewer with animationId := none } demoRun.sch).2.2.1
      (by decide) (by decide)
    simpa using h
  · exact (c8_visibility_loop_control (init (mkViewer "model-canvas-1" false))
      sch0).2.2.2 (by decide)

/-- C10: `dispose()` on a registered viewer leaves the registry untouched
and the `isInitialized` flag set; a subsequent `load3DModel` for the same
canvas id therefore resolves to the very same (disposed) object with the
world unchanged, and `init()` on that object returns immediately — its
renderer, scene, camera and controls stay null. -/
theorem c10_disposed_viewer_stays_registered (isMobile : Bool) (cid : String) :
    lookupEntry (disposeInWorld (getOrCreateViewer isMobile emptyWorld cid).1
        (getOrCreateViewer isMobile emptyWorld cid).2) cid =
      some (getOrCreateViewer isMobile emptyWorld cid).2 ∧
    ∃ vd : Viewer,
      getViewer (disposeInWorld (getOrCreateViewer isMobile emptyWorld cid).1
          (getOrCreateViewer isMobile emptyWorld cid).2)
          (getOrCreateViewer isMobile emptyWorld cid).2 = some vd ∧
      vd.isInitialized = true ∧
      getOrCreateViewer isMobile
          (disposeInWorld (getOrCreateViewer isMobile emptyWorld cid).1
            (getOrCreateViewer isMobile emptyWorld cid).2) cid =
        (disposeInWorld (getOrCreateViewer isMobile emptyWorld cid).1
          (getOrCreateViewer isMobile emptyWorld cid).2,
         (getOrCreateViewer isMobile emptyWorld cid).2) ∧
      init vd = vd ∧
      vd.renderer = none ∧ vd.scene = none ∧ vd.camera = none ∧
      vd.controls = none := by
  have hcreate : getOrCreateViewer isMobile emptyWorld cid =
      ({ entries := [(cid, 0)]
         store := [(0, init (mkViewer cid isMobile))]
         nextObj := 1
         sch := sch0 }, 0) := by
    simp [getOrCreateViewer, lookupEntry, emptyWorld]
  set v0 := init (mkViewer cid isMobile) with hv0
  have hdisp : disposeInWorld (getOrCreateViewer isMobile emptyWorld cid).1
      (getOrCreateViewer isMobile emptyWorld cid).2 =
      { entries := [(cid, 0)]
        store := [(0, (dispose v0 sch0).1)]
        nextObj := 1
        sch := (dispose v0 sch0).2 } := by
    rw [hcreate]
    simp [disposeInWorld, getViewer, setViewer]
  refine ⟨?_, (dispose v0 sch0).1, ?_, ?_, ?_, ?_, ?_, ?_, ?_, ?_⟩
  · rw [hdisp, hcreate]
    simp [lookupEntry]
  · rw [hdisp, hcreate]
    simp [getViewer]
  · simp [dispose, hv0, init, mkViewer]
  · rw [hdisp, hcreate]
    simp [getOrCreateViewer, lookupEntry]
  · have hinit : (dispose v0 sch0).1.isInitialized = true := by
      simp [dispose, hv0, init, mkViewer]
    simp [init, hinit]
  · simp [dispose]
  · simp [dispose]
  · simp [dispose]
  · simp [dispose]

/-- C6: on a loaded model, `setViewMode('solid')` then
`setViewMode('textured')` restores, on every sub-part whose texture map
was recorded into `userData.originalMap` at load time (i.e. whose material
carried a texture map when the model was loaded), the exact same texture
object, and clears the wireframe flag. -/
theorem c6_viewmode_roundtrip (gltf : Model) (isMobile : Bool) (i : Nat)
    (c0 : Mesh) (t : Texture)
    (hc : gltf.meshes[i]? = some c0) (hmap : matMap c0 = some t) :
    ∃ c1 : Mesh,
      (setViewModeModel "textured" (setViewModeModel "solid"
          (prepModel isMobile gltf))).meshes[i]? = some c1 ∧
      matMap c1 = some t ∧
      matWireframe c1 = some false ∧
      c1.originalMap = some t := by
  refine ⟨applyViewMode "textured" (applyViewMode "solid"
      (prepMesh isMobile c0)), ?_, ?_⟩
  · simp [setViewModeModel, prepModel, List.getElem?_map, hc]
  · cases hmat : c0.material with
    | single m =>
      have hm : m.map = some t := by
        simpa [matMap, hmat] using hmap
      refine ⟨?_, ?_, ?_⟩ <;>
        simp [applyViewMode, prepMesh, matMap, matWireframe, hmat, hm]
    | noMat => simp [matMap, hmat] at hmap
    | array ms => simp [matMap, hmat] at hmap

/-- C6 (witness): the round trip on the loaded `demoModelA` restores its
recorded base texture and clears the wireframe flag. -/
theorem c6_viewmode_roundtrip_witness :
    ∃ c1 : Mesh,
      (setViewModeModel "textured" (setViewModeModel "solid"
          (prepModel false demoModelA))).meshes[0]? = some c1 ∧
      matMap c1 = some demoTexture ∧
      matWireframe c1 = some false ∧
      c1.originalMap = some demoTexture :=
  c6_viewmode_roundtrip demoModelA false 0 demoMesh demoTexture
    (by decide) (by decide)

/-! ### Helper lemmas for the load-sequence invariant -/

/-- An element of `xs` occurs strictly before the appended final element. -/
theorem evBefore_append_of_mem {xs : List DisposeEv} {a b : DisposeEv}
    (h : a ∈ xs) : evBefore (xs ++ [b]) a b := by
  obtain ⟨i, hi⟩ := List.getElem?_of_mem h
  have hilt : i < xs.length := by
    obtain ⟨hlt, -⟩ := List.getElem?_eq_some.mp hi
    exact hlt
  refine ⟨i, xs.length, hilt, ?_, ?_⟩
  · rw [List.getElem?_append]
    simp [hilt, hi]
  · exact List.getElem?_concat_length xs b

/-- Strict precedence inside a contiguous segment survives embedding the
segment into a larger trace. -/
theorem evBefore_of_segment {mid : List DisposeEv} {a b : DisposeEv}
    (pre post : List DisposeEv) (h : evBefore mid a b) :
    evBefore (pre ++ mid ++ post) a b := by
  obtain ⟨i, j, hij, ha, hb⟩ := h
  have hi : i < mid.length := (List.getElem?_eq_some.mp ha).1
  have hj : j < mid.length := (List.getElem?_eq_some.mp hb).1
  have key : ∀ (k : Nat), k < mid.length →
      (pre ++ mid ++ post)[pre.length + k]? = mid[k]? := by
    intro k hk
    rw [List.append_assoc, List.getElem?_append_right (Nat.le_add_right _ _)]
    rw [Nat.add_sub_cancel_left, List.getElem?_append]
    simp [hk]
  exact ⟨pre.length + i, pre.length + j, by omega,
    by rw [key i hi]; exact ha, by rw [key j hj]; exact hb⟩

/-- A member's image is a contiguous segment of a `flatMap`. -/
theorem segment_of_mem_flatMap {α β : Type} (f : α → List β) {x : α}
    {l : List α} (h : x ∈ l) :
    ∃ pre post, l.flatMap f = pre ++ f x ++ post := by
  obtain ⟨s, t, rfl⟩ := List.append_of_mem h
  exact ⟨s.flatMap f, t.flatMap f, by
    simp [List.flatMap_append, List.flatMap_cons, List.append_assoc]⟩

/-- Within one material's release trace, each present texture map is
released strictly before the material itself. -/
theorem tex_before_mat_in_matEvs (mt : Material) {t : Texture}
    (h : mt.map = some t ∨ mt.normalMap = some t ∨
      mt.roughnessMap = some t ∨ mt.metalnessMap = some t) :
    evBefore (disposeMaterialEvs mt) (DisposeEv.tex t.id) (DisposeEv.mat mt.id) := by
  have hfront : DisposeEv.tex t.id ∈
      optTexEv mt.map ++ optTexEv mt.normalMap ++ optTexEv mt.roughnessMap ++
        optTexEv mt.metalnessMap := by
    rcases h with h | h | h | h <;> simp [optTexEv, h]
  have hshape : disposeMaterialEvs mt =
      (optTexEv mt.map ++ optTexEv mt.normalMap ++ optTexEv mt.roughnessMap ++
        optTexEv mt.metalnessMap) ++ [DisposeEv.mat mt.id] := by
    simp [disposeMaterialEvs, List.append_assoc]
  rw [hshape]
  exact evBefore_append_of_mem hfront

/-- Each material's release trace is a contiguous segment of its mesh's. -/
theorem matEvs_segment_of_meshEvs (c : Mesh) {mt : Material}
    (h : mt ∈ slotMats c.material) :
    ∃ pre post, disposeMeshEvs c = pre ++ disposeMaterialEvs mt ++ post := by
  obtain ⟨p1, p2, hfm⟩ := segment_of_mem_flatMap disposeMaterialEvs h
  refine ⟨(match c.geometry with
    | some g => [DisposeEv.geo g.id]
    | none => []) ++ p1, p2, ?_⟩
  simp [disposeMeshEvs, hfm, List.append_assoc]

/-- Each mesh's release trace is a contiguous segment of its model's. -/
theorem meshEvs_segment_of_modelEvs (m : Model) {c : Mesh}
    (h : c ∈ m.meshes) :
    ∃ pre post, disposeModelEvs m = pre ++ disposeMeshEvs c ++ post := by
  obtain ⟨p1, p2, hfm⟩ := segment_of_mem_flatMap disposeMeshEvs h
  exact ⟨p1, p2, by simpa [disposeModelEvs] using hfm⟩

/-- If a model's complete release trace occurs as a contiguous segment of
a trace, the model is fully released in that trace. -/
theorem fullyReleased_of_trace_segment {m : Model} {tr : List DisposeEv}
    (h : ∃ pre post, tr = pre ++ disposeModelEvs m ++ post) :
    fullyReleased m tr := by
  obtain ⟨P, Q, hPQ⟩ := h
  intro c hc
  have hmesh : ∀ e : DisposeEv, e ∈ disposeMeshEvs c → e ∈ tr := by
    intro e he
    have h2 : e ∈ disposeModelEvs m := List.mem_flatMap.mpr ⟨c, hc, he⟩
    rw [hPQ]
    simp [h2]
  constructor
  · intro g hg
    exact hmesh _ (by simp [disposeMeshEvs, hg])
  · intro mt hmt
    have hlift : ∀ t : Texture,
        (mt.map = some t ∨ mt.normalMap = some t ∨
          mt.roughnessMap = some t ∨ mt.metalnessMap = some t) →
        evBefore tr (DisposeEv.tex t.id) (DisposeEv.mat mt.id) := by
      intro t ht
      have hb1 := tex_before_mat_in_matEvs mt ht
      obtain ⟨p1, p2, hseg1⟩ := matEvs_segment_of_meshEvs c hmt
      have hb2 := evBefore_of_segment p1 p2 hb1
      rw [← hseg1] at hb2
      obtain ⟨p3, p4, hseg2⟩ := meshEvs_segment_of_modelEvs m hc
      have hb3 := evBefore_of_segment p3 p4 hb2
      rw [← hseg2] at hb3
      have hb4 := evBefore_of_segment P Q hb3
      rw [← hPQ] at hb4
      exact hb4
    refine ⟨?_, fun t ht => hlift t (Or.inl ht),
      fun t ht => hlift t (Or.inr (Or.inl ht)),
      fun t ht => hlift t (Or.inr (Or.inr (Or.inl ht))),
      fun t ht => hlift t (Or.inr (Or.inr (Or.inr ht)))⟩
    refine hmesh _ ?_
    have : DisposeEv.mat mt.id ∈ disposeMaterialEvs mt := by
      simp [disposeMaterialEvs]
    simp only [disposeMeshEvs, List.mem_append]
    exact Or.inr (List.mem_flatMap.mpr ⟨mt, hmt, this⟩)

/-- The success callback's material-preparation traversal does not change
a mesh's geometry or materials, hence not its release trace. -/
theorem disposeMeshEvs_prep (isMobile : Bool) (c : Mesh) :
    disposeMeshEvs (prepMesh isMobile c) = disposeMeshEvs c := by
  cases h : matMap c <;> simp [prepMesh, disposeMeshEvs, h]

/-- The preparation traversal over a whole model preserves its release
trace. -/
theorem disposeModelEvs_prep (isMobile : Bool) (m : Model) :
    disposeModelEvs (prepModel isMobile m) = disposeModelEvs m := by
  simp only [disposeModelEvs, prepModel]
  generalize m.meshes = l
  induction l with
  | nil => rfl
  | cons c cs ih => simp [List.flatMap_cons, ih, disposeMeshEvs_prep]

/-- Unpacking the scene invariant. -/
theorem scene_of_inv {v : Viewer} (h : SceneInv v) :
    ∃ sc : Scene, v.scene = some sc ∧
      sc.models = (match v.model with
        | some m => [m.id]
        | none => []) := by
  unfold SceneInv sceneModels at h
  cases hs : v.scene with
  | none => rw [hs] at h; simp at h
  | some sc =>
    rw [hs] at h
    simp only [Option.map_some', Option.some.injEq] at h
    exact ⟨sc, rfl, h⟩

/-- One load completion keeps the current model as the sole scene child. -/
theorem step_scene_inv (st : LoadRun) (g : Model) (h : SceneInv st.viewer) :
    SceneInv (onGltfLoaded st g).viewer := by
  obtain ⟨sc, hsc, hmods⟩ := scene_of_inv h
  unfold SceneInv sceneModels
  cases hm : st.viewer.model with
  | none =>
    rw [hm] at hmods
    simp [onGltfLoaded, hsc, hm, apply_ite, animateOnce, hmods]
  | some old =>
    rw [hm] at hmods
    simp [onGltfLoaded, hsc, hm, apply_ite, animateOnce, hmods]

/-- One load completion installs the prepared new model. -/
theorem step_model (st : LoadRun) (g : Model) {sc : Scene}
    (hsc : st.viewer.scene = some sc) :
    (onGltfLoaded st g).viewer.model =
      some (prepModel st.viewer.isMobile g) := by
  simp [onGltfLoaded, hsc, apply_ite, animateOnce]

/-- One load completion only appends to the release trace. -/
theorem step_trace_mono (st : LoadRun) (g : Model) :
    ∃ ext, (onGltfLoaded st g).trace = st.trace ++ ext := by
  cases hsc : st.viewer.scene with
  | none => exact ⟨[], by simp [onGltfLoaded, hsc]⟩
  | some sc =>
    cases hm : st.viewer.model with
    | none => exact ⟨[], by simp [onGltfLoaded, hsc, hm]⟩
    | some old =>
      exact ⟨disposeModelEvs old, by simp [onGltfLoaded, hsc, hm]⟩

/-- A load completion that replaces `old` appends exactly `old`'s release
trace. -/
theorem step_trace_some (st : LoadRun) (g : Model) {sc : Scene} {old : Model}
    (hsc : st.viewer.scene = some sc) (hm : st.viewer.model = some old) :
    (onGltfLoaded st g).trace = st.trace ++ disposeModelEvs old := by
  simp [onGltfLoaded, hsc, hm]

/-- Folding further load completions only appends to the trace. -/
theorem foldl_trace_mono (gs : List Model) :
    ∀ st : LoadRun, ∃ ext,
      (gs.foldl onGltfLoaded st).trace = st.trace ++ ext := by
  induction gs with
  | nil => exact fun st => ⟨[], by simp⟩
  | cons g rest ih =>
    intro st
    obtain ⟨e1, h1⟩ := step_trace_mono st g
    obtain ⟨e2, h2⟩ := ih (onGltfLoaded st g)
    exact ⟨e1 ++ e2, by
      rw [List.foldl_cons, h2, h1, List.append_assoc]⟩

/-- The scene invariant is preserved by any load-completion sequence. -/
theorem foldl_scene_inv (gs : List Model) :
    ∀ st : LoadRun, SceneInv st.viewer →
      SceneInv ((gs.foldl onGltfLoaded st).viewer) := by
  induction gs with
  | nil => exact fun st h => h
  | cons g rest ih =>
    intro st h
    rw [List.foldl_cons]
    exact ih _ (step_scene_inv st g h)

/-- Once further completions arrive, the currently attached model's full
release trace appears as a contiguous segment of the accumulated trace. -/
theorem released_of_current (g : Model) (rest : List Model) (st : LoadRun)
    {sc : Scene} {old : Model}
    (hsc : st.viewer.scene = some sc) (hm : st.viewer.model = some old) :
    ∃ pre post, (((g :: rest).foldl onGltfLoaded st).trace) =
      pre ++ disposeModelEvs old ++ post := by
  have h1 := step_trace_some st g hsc hm
  obtain ⟨ext, h2⟩ := foldl_trace_mono rest (onGltfLoaded st g)
  exact ⟨st.trace, ext, by
    rw [List.foldl_cons, h2, h1, List.append_assoc]⟩

/-- Every model of a completion sequence except the last is replaced, and
its full release trace appears contiguously in the final trace. -/
theorem all_replaced_released (gs : List Model) :
    ∀ st : LoadRun, SceneInv st.viewer →
      ∀ m ∈ gs.dropLast, ∃ pre post,
        ((gs.foldl onGltfLoaded st).trace) = pre ++ disposeModelEvs m ++ post := by
  induction gs with
  | nil => intro st _ m hm; simp at hm
  | cons g rest ih =>
    intro st hinv m hm
    cases hrest : rest with
    | nil => rw [hrest] at hm; simp at hm
    | cons r rest2 =>
      rw [hrest, List.dropLast_cons_of_ne_nil (by simp)] at hm
      rw [← hrest] at hm
      rcases List.mem_cons.mp hm with rfl | hm2
      · obtain ⟨sc, hsc, -⟩ := scene_of_inv hinv
        have hinv1 := step_scene_inv st m hinv
        obtain ⟨sc1, hsc1, -⟩ := scene_of_inv hinv1
        have hmodel := step_model st m hsc
        rw [List.foldl_cons]
        obtain ⟨pre, post, hseg⟩ := released_of_current r rest2
          (onGltfLoaded st m) hsc1 hmodel
        rw [disposeModelEvs_prep] at hseg
        exact ⟨pre, post, hseg⟩
      · rw [List.foldl_cons, ← hrest]
        exact ih (onGltfLoaded st g) (step_scene_inv st g hinv) m hm2

/-- C1: over any finite sequence of settled `loadModel` completions on one
viewer, at most one model remains attached to the scene, and every
replaced model is fully released — each sub-part's geometry is disposed,
and for each of its materials every present texture map (`map`,
`normalMap`, `roughnessMap`, `metalnessMap`) is disposed strictly before
the material itself.  (In the success callback the release of the old
model precedes the assignment of the new one, so release happens before
or at the point of replacement; the trace order exhibits this.) -/
theorem c1_single_model_full_release (isMobile : Bool) (cid : String)
    (gltfs : List Model) :
    (∀ l, sceneModels (loadSequence isMobile cid gltfs).viewer = some l →
      l.length ≤ 1) ∧
    (∀ m ∈ gltfs.dropLast,
      fullyReleased m (loadSequence isMobile cid gltfs).trace) := by
  have hinv0 : SceneInv (initialRun isMobile cid).viewer := by
    simp [SceneInv, sceneModels, initialRun, init, mkViewer]
  constructor
  · intro l hl
    have hfin := foldl_scene_inv gltfs (initialRun isMobile cid) hinv0
    obtain ⟨sc, hsc, hmods⟩ := scene_of_inv hfin
    unfold loadSequence at hl
    rw [sceneModels, hsc] at hl
    simp only [Option.map_some', Option.some.injEq] at hl
    subst hl
    rw [hmods]
    cases (gltfs.foldl onGltfLoaded (initialRun isMobile cid)).viewer.model <;>
      simp
  · intro m hm
    exact fullyReleased_of_trace_segment
      (all_replaced_released gltfs (initialRun isMobile cid) hinv0 m hm)

/-- C1 (witness): after loading `demoModelA` then `demoModelB`, the
replaced first model's geometry is released, and both of its material's
texture maps are released strictly before the material itself. -/
theorem c1_single_model_full_release_witness :
    DisposeEv.geo 100 ∈
      (loadSequence false "model-canvas-1" [demoModelA, demoModelB]).trace ∧
    evBefore (loadSequence false "model-canvas-1" [demoModelA, demoModelB]).trace
      (DisposeEv.tex 300) (DisposeEv.mat 200) ∧
    evBefore (loadSequence false "model-canvas-1" [demoModelA, demoModelB]).trace
      (DisposeEv.tex 301) (DisposeEv.mat 200) := by
  have h := (c1_single_model_full_release false "model-canvas-1"
      [demoModelA, demoModelB]).2 demoModelA (by decide)
  have h2 := h demoMesh (by decide)
  have h3 := h2.2 demoMaterial (by decide)
  exact ⟨h2.1 ⟨100⟩ (by decide), h3.2.1 demoTexture (by decide),
    h3.2.2.1 demoNormalTexture (by decide)⟩

end PortfolioViewer
